import Mathlib

/-
Shallow embedding of src/spatial_tools/plotting/_graph.py.

The module reads precomputed results out of an AnnData container and issues
plotting-library calls.  We model the container as association lists (uns and
obs), Python exceptions as an explicit error type (a dict lookup on a missing
key raises KeyError; the module itself raises ValueError and Warning), and
every call into matplotlib/seaborn as an event appended to a trace.  Each of
the three functions returns the trace (or the first uncaught exception)
together with the container, threaded through unchanged because the source
performs no in-place update (pandas rename without inplace returns a copy).
-/

namespace SpatialTools

/-- A table cell: the source tables hold cluster labels (strings) and metric
values (numbers); the module performs no arithmetic on them. -/
inductive Cell where
  | str (v : String)
  | num (v : Int)
deriving DecidableEq, Repr

/-- A pandas DataFrame as used by the module: named columns and rows. -/
structure DataFrame where
  columns : List String
  rows : List (List Cell)
deriving DecidableEq, Repr

/-- pandas DataFrame.rename(columns=m): returns a copy in which every column
name that appears in the mapping is replaced, other names kept. -/
def DataFrame.rename (d : DataFrame) (m : List (String × String)) : DataFrame :=
  DataFrame.mk (d.columns.map (fun c => (List.lookup c m).getD c)) d.rows

/-- A value stored in adata.uns: a data frame (centrality scores, ripley-k
table), a pair of an interaction matrix with its cluster labels, or a list of
color strings. -/
inductive UnsVal where
  | df (d : DataFrame)
  | matrixLabels (m : List (List Int)) (labels : List String)
  | colors (cs : List String)
deriving DecidableEq, Repr

/-- The AnnData container: the string-keyed uns store and the per-observation
categorical columns of obs. -/
structure AnnData where
  uns : List (String × UnsVal)
  obs : List (String × List String)
deriving DecidableEq, Repr

/-- A Python exception escaping the module: KeyError from a dict lookup on a
missing key, ValueError and Warning raised by the module itself, and
AttributeError/TypeError style failures when a stored value has an unexpected
shape. -/
inductive PyErr where
  | keyError (key : String)
  | valueError (msg : String)
  | warningExc (msg : String)
  | attributeError
deriving DecidableEq, Repr

/-- One call into the plotting library. -/
inductive PlotEvent where
  | subplot (nrows ncols index : Nat)
  | stripplot (d : DataFrame) (y x : String)
  | spineInvisible (side : String)
  | yaxisGridOn
  | tickParamsOff
  | ylabelNone
  | tickParamsLabelLeftOff
  | figure
  | addSubplot (pos : Nat)
  | matshow (m : List (List Int))
  | colorbar
  | xticks (positions : List Nat) (labels : List String)
  | yticks (positions : List Nat) (labels : List String)
  | lineplot (x y hue : String) (hue_order : Option (List String))
      (palette : Option (List String)) (data : DataFrame)
deriving DecidableEq, Repr

/-- adata.uns_keys(). -/
def AnnData.uns_keys (a : AnnData) : List String := a.uns.map Prod.fst

/-- adata.uns[key]: a dict lookup, raising KeyError when the key is absent. -/
def AnnData.unsItem (a : AnnData) (key : String) : Except PyErr UnsVal :=
  match List.lookup key a.uns with
  | some v => Except.ok v
  | none => Except.error (PyErr.keyError key)

/-- adata.obs[key]: column lookup, raising KeyError when the column is absent. -/
def AnnData.obsItem (a : AnnData) (key : String) : Except PyErr (List String) :=
  match List.lookup key a.obs with
  | some v => Except.ok v
  | none => Except.error (PyErr.keyError key)

/-- Semantics of a Python try/except ValueError block: only a ValueError is
handled (both handlers in the source ignore the caught value); KeyError,
Warning and everything else propagate unchanged. -/
def catchValueError {α : Type} (body : Except PyErr α) (handler : Except PyErr α) :
    Except PyErr α :=
  match body with
  | Except.error (PyErr.valueError _) => handler
  | e => e

/-- The message of the ValueError raised by plot_cluster_centrality_scores on
a missing key (the %s interpolation spelled out). -/
def centralityMissingMsg (key : String) : String :=
  "centrality_scores_key " ++ key ++
    " not recognized. Choose a different key or run first nhood.cluster_centrality_scores(adata) on your AnnData object."

/-- The message of the ValueError raised by plot_cluster_interactions on a
missing key. -/
def interactionsMissingMsg (key : String) : String :=
  "cluster_interactions_key " ++ key ++
    " not recognized. Choose a different key or run first nhood.cluster_interactions(adata) on your AnnData object."

/-- The message of the ValueError in plot_ripley_k.  In the source the
f-string reads "\looks like `riply_k_{cluster_key}` was not used..."; the
escapes \l and \i are literal backslashes and the derived key is misspelled
riply_k_ there. -/
def ripleyMissingMsg (cluster_key : String) : String :=
  "\\looks like `riply_k_" ++ cluster_key ++
    "` was not used\n\n\\is not present in adata.uns,\n\tplease rerun ripley_k or pass\n\ta dataframe"

/-- The message of the Warning in plot_ripley_k; the leading \t is a tab. -/
def noPaletteMsg (cluster_key : String) : String :=
  "\there is no color palette in adata_uns for " ++ cluster_key ++ "\n"

/-- The column rename mapping applied by plot_cluster_centrality_scores. -/
def centralityRenameMap : List (String × String) :=
  [("degree centrality", "degree\ncentrality"),
   ("clustering coefficient", "clustering\ncoefficient"),
   ("closeness centrality", "closeness\ncentrality"),
   ("betweenness centrality", "betweenness\ncentrality")]

/-- The values list iterated by plot_cluster_centrality_scores. -/
def centralityValues : List String :=
  ["degree\ncentrality", "clustering\ncoefficient",
   "closeness\ncentrality", "betweenness\ncentrality"]

/-- One iteration of the subplot loop of plot_cluster_centrality_scores:
subplot(1, 4, i), the stripplot on column value with y="cluster", the four
spines hidden, grid and tick styling, and for i > 1 the suppression of the
y label and of the left tick labels. -/
def stripPanel (d : DataFrame) (i : Nat) (value : String) : List PlotEvent :=
  [PlotEvent.subplot 1 4 i, PlotEvent.stripplot d "cluster" value,
   PlotEvent.spineInvisible "right", PlotEvent.spineInvisible "top",
   PlotEvent.spineInvisible "bottom", PlotEvent.spineInvisible "left",
   PlotEvent.yaxisGridOn, PlotEvent.tickParamsOff] ++
  (if 1 < i then [PlotEvent.ylabelNone, PlotEvent.tickParamsLabelLeftOff] else [])

/-- plot_cluster_centrality_scores(adata, centrality_scores_key): membership
test on uns (the key-in-uns_keys check and the subsequent dict lookup agree
with List.lookup), the rename to two-line labels on a copy, then the four
panel iterations zip([1,2,3,4], values). -/
def plot_cluster_centrality_scores (adata : AnnData) (centrality_scores_key : String) :
    Except PyErr (List PlotEvent) × AnnData :=
  (match List.lookup centrality_scores_key adata.uns with
   | some (UnsVal.df d) =>
       let df := d.rename centralityRenameMap
       Except.ok (((List.zip [1, 2, 3, 4] centralityValues).map
         (fun p => stripPanel df p.1 p.2)).flatten)
   | some _ => Except.error PyErr.attributeError
   | none =>
       Except.error (PyErr.valueError (centralityMissingMsg centrality_scores_key)),
   adata)

/-- plot_cluster_interactions(adata, cluster_interactions_key): membership
test on uns, then figure, add_subplot(111), matshow of the pair's first
component, colorbar, and x/y tick labels from the pair's second component at
positions range(len(labels)). -/
def plot_cluster_interactions (adata : AnnData) (cluster_interactions_key : String) :
    Except PyErr (List PlotEvent) × AnnData :=
  (match List.lookup cluster_interactions_key adata.uns with
   | some (UnsVal.matrixLabels m labels) =>
       Except.ok [PlotEvent.figure, PlotEvent.addSubplot 111,
         PlotEvent.matshow m, PlotEvent.colorbar,
         PlotEvent.xticks (List.range labels.length) labels,
         PlotEvent.yticks (List.range labels.length) labels]
   | some _ => Except.error PyErr.attributeError
   | none =>
       Except.error (PyErr.valueError (interactionsMissingMsg cluster_interactions_key)),
   adata)

/-- Strict comparison of two characters by code point, as numpy compares the
characters of unicode strings. -/
def charLtB (a b : Char) : Bool := decide (a.toNat < b.toNat)

/-- Lexicographic order on character lists by code point. -/
def lexLeB : List Char → List Char → Bool
  | [], _ => true
  | _ :: _, [] => false
  | x :: xs, y :: ys =>
      if charLtB x y then true
      else if charLtB y x then false
      else lexLeB xs ys

/-- Lexicographic order on strings by code point, the ascending order used by
np.sort on string arrays. -/
def strLeB (a b : String) : Bool := lexLeB a.data b.data

/-- Insert a string into an ascending list. -/
def insertAsc (x : String) : List String → List String
  | [] => [x]
  | y :: ys => if strLeB x y then x :: y :: ys else y :: insertAsc x ys

/-- Sort a list of strings ascending (insertion sort under strLeB). -/
def sortAsc : List String → List String
  | [] => []
  | x :: xs => insertAsc x (sortAsc xs)

/-- np.sort(series.unique()) as a list comprehension: first occurrences kept
by unique(), then sorted ascending. -/
def sortedUnique (l : List String) : List String :=
  sortAsc (l.dedup)

/-- The derived-mode body of plot_ripley_k: the outer try reads
adata.uns["ripley_k_" ++ cluster_key]; the inner try computes the hue order
from adata.obs[cluster_key] and the palette from
adata.uns[cluster_key ++ "_colors"], its except-ValueError handler raising a
Warning; the outer except-ValueError handler raising the instructive
ValueError.  Dict lookups raise KeyError, which neither handler matches. -/
def ripleyDerived (adata : AnnData) (cluster_key : String) :
    Except PyErr (DataFrame × Option (List String) × Option (List String)) :=
  catchValueError
    (match adata.unsItem ("ripley_k_" ++ cluster_key) with
     | Except.error e => Except.error e
     | Except.ok (UnsVal.df d) =>
       match catchValueError
           (match adata.obsItem cluster_key with
            | Except.error e => Except.error e
            | Except.ok col =>
              match adata.unsItem (cluster_key ++ "_colors") with
              | Except.error e => Except.error e
              | Except.ok (UnsVal.colors cs) => Except.ok (sortedUnique col, cs)
              | Except.ok _ => Except.error PyErr.attributeError)
           (Except.error (PyErr.warningExc (noPaletteMsg cluster_key))) with
       | Except.error e => Except.error e
       | Except.ok hp => Except.ok (d, some hp.1, some hp.2)
     | Except.ok _ => Except.error PyErr.attributeError)
    (Except.error (PyErr.valueError (ripleyMissingMsg cluster_key)))

/-- plot_ripley_k(adata, cluster_key, df): with an explicit df both hue_order
and palette are None and no container access happens; otherwise the derived
lookups run; in either case figure, add_subplot(111) and one
sns.lineplot("distance", "ripley_k", hue="leiden", ...) call follow. -/
def plot_ripley_k (adata : AnnData) (cluster_key : String) (df : Option DataFrame) :
    Except PyErr (List PlotEvent) × AnnData :=
  (match df with
   | some d =>
       Except.ok [PlotEvent.figure, PlotEvent.addSubplot 111,
         PlotEvent.lineplot "distance" "ripley_k" "leiden" none none d]
   | none =>
       match ripleyDerived adata cluster_key with
       | Except.error e => Except.error e
       | Except.ok dhp =>
           Except.ok [PlotEvent.figure, PlotEvent.addSubplot 111,
             PlotEvent.lineplot "distance" "ripley_k" "leiden" dhp.2.1 dhp.2.2 dhp.1],
   adata)

/-- The (nrows, ncols, index) of every subplot call in a trace. -/
def subplotCells (es : List PlotEvent) : List (Nat × Nat × Nat) :=
  es.filterMap (fun e => match e with
    | PlotEvent.subplot r c i => some (r, c, i)
    | _ => none)

/-- The x column of every stripplot call in a trace. -/
def stripXs (es : List PlotEvent) : List String :=
  es.filterMap (fun e => match e with
    | PlotEvent.stripplot _ _ x => some x
    | _ => none)

/-- The y column of every stripplot call in a trace. -/
def stripYs (es : List PlotEvent) : List String :=
  es.filterMap (fun e => match e with
    | PlotEvent.stripplot _ y _ => some y
    | _ => none)

/-- The data frame of every stripplot call in a trace. -/
def stripDatas (es : List PlotEvent) : List DataFrame :=
  es.filterMap (fun e => match e with
    | PlotEvent.stripplot d _ _ => some d
    | _ => none)

/-- The (x, y, hue) column-name triple of every lineplot call in a trace. -/
def lineplotSigs (es : List PlotEvent) : List (String × String × String) :=
  es.filterMap (fun e => match e with
    | PlotEvent.lineplot x y hue _ _ _ => some (x, y, hue)
    | _ => none)

/-- The label list of every xticks call in a trace. -/
def xtickLabelLists (es : List PlotEvent) : List (List String) :=
  es.filterMap (fun e => match e with
    | PlotEvent.xticks _ ls => some ls
    | _ => none)

/-- The label list of every yticks call in a trace. -/
def ytickLabelLists (es : List PlotEvent) : List (List String) :=
  es.filterMap (fun e => match e with
    | PlotEvent.yticks _ ls => some ls
    | _ => none)

/-- The position list of every xticks call in a trace. -/
def xtickPositionLists (es : List PlotEvent) : List (List Nat) :=
  es.filterMap (fun e => match e with
    | PlotEvent.xticks ps _ => some ps
    | _ => none)

/-- The subplot indices under which a given event kind occurs: walk the trace
remembering the index of the last subplot call and record it at each event
satisfying p. -/
def panelsWhere (p : PlotEvent → Bool) : Nat → List PlotEvent → List Nat
  | _, [] => []
  | _, PlotEvent.subplot _ _ i :: es => panelsWhere p i es
  | cur, e :: es =>
      if p e then cur :: panelsWhere p cur es else panelsWhere p cur es

/-- The subplot indices at which the y-axis label is removed. -/
def panelsWithYlabelOff (es : List PlotEvent) : List Nat :=
  panelsWhere (fun e => match e with | PlotEvent.ylabelNone => true | _ => false) 0 es

/-- The subplot indices at which the left tick labels are turned off. -/
def panelsWithLeftTicksOff (es : List PlotEvent) : List Nat :=
  panelsWhere (fun e => match e with | PlotEvent.tickParamsLabelLeftOff => true | _ => false) 0 es

/-- A container whose annotation store and obs are empty. -/
def emptyAnnData : AnnData := AnnData.mk [] []

/-- A well-formed ripley-k result table. -/
def ripleyTable : DataFrame :=
  DataFrame.mk ["distance", "ripley_k", "leiden"]
    [[Cell.num 0, Cell.num 0, Cell.str "0"],
     [Cell.num 1, Cell.num 1, Cell.str "1"]]

/-- A container holding the derived ripley-k key and the obs column but no
color slot for the cluster key. -/
def adataNoColors : AnnData :=
  AnnData.mk [("ripley_k_leiden", UnsVal.df ripleyTable)] [("leiden", ["0", "1", "0"])]

/-- A container holding the obs column but not the derived ripley-k key. -/
def adataNoRipley : AnnData :=
  AnnData.mk [("other", UnsVal.colors ["red"])] [("leiden", ["0"])]

/-- A container holding the derived ripley-k key, the obs column and the
color slot. -/
def adataFull : AnnData :=
  AnnData.mk
    [("ripley_k_leiden", UnsVal.df ripleyTable),
     ("leiden_colors", UnsVal.colors ["#111111", "#222222"])]
    [("leiden", ["1", "0", "1"])]

/-- C1: on a container lacking every key, the two uns-checked operations do
raise the instructive ValueError whose message contains the supplied key, but
plot_ripley_k in derived mode raises a bare KeyError for the derived key: the
except-ValueError handler never matches the KeyError of the uns lookup, so
the hard missing-result ValueError is unreachable for the third operation. -/
theorem c1_missing_key_divergence :
    (plot_cluster_centrality_scores emptyAnnData "my_scores").1 =
      Except.error (PyErr.valueError ("centrality_scores_key " ++ "my_scores" ++
        " not recognized. Choose a different key or run first nhood.cluster_centrality_scores(adata) on your AnnData object.")) ∧
    (plot_cluster_interactions emptyAnnData "my_inter").1 =
      Except.error (PyErr.valueError ("cluster_interactions_key " ++ "my_inter" ++
        " not recognized. Choose a different key or run first nhood.cluster_interactions(adata) on your AnnData object.")) ∧
    (plot_ripley_k emptyAnnData "leiden" none).1 =
      Except.error (PyErr.keyError "ripley_k_leiden") :=
  ⟨rfl, rfl, rfl⟩

/-- C2: with the derived key present and the color slot "leiden_colors"
absent, plot_ripley_k does not complete and emits no warning: the uns lookup
of the color slot raises a KeyError that neither except-ValueError handler
catches, so no lineplot event is produced. -/
theorem c2_missing_palette_aborts :
    (plot_ripley_k adataNoColors "leiden" none).1 =
      Except.error (PyErr.keyError "leiden_colors") := rfl

/-- C3: with the derived key absent, plot_ripley_k raises KeyError
"ripley_k_leiden" instead of the instructive missing-result ValueError; that
ValueError is dead code, and its text moreover spells the key "riply_k_". -/
theorem c3_missing_derived_key_keyerror :
    (plot_ripley_k adataNoRipley "leiden" none).1 =
      Except.error (PyErr.keyError "ripley_k_leiden") ∧
    ripleyMissingMsg "leiden" =
      "\\looks like `riply_k_leiden` was not used\n\n\\is not present in adata.uns,\n\tplease rerun ripley_k or pass\n\ta dataframe" :=
  ⟨rfl, rfl⟩

/-- C4: with an explicit table plot_ripley_k touches no container slot: for
every container (including one lacking the derived key) it succeeds, leaving
hue order and palette unset. -/
theorem c4_explicit_table_bypasses_container (adata : AnnData) (cluster_key : String)
    (d : DataFrame) :
    plot_ripley_k adata cluster_key (some d) =
      (Except.ok [PlotEvent.figure, PlotEvent.addSubplot 111,
        PlotEvent.lineplot "distance" "ripley_k" "leiden" none none d], adata) := rfl

/-- C5: in derived mode plot_ripley_k reads the table under exactly
"ripley_k_" ++ cluster_key and, when the obs column and the color slot
cluster_key ++ "_colors" are present, uses the sorted unique obs labels as
hue order and the stored color list as palette. -/
theorem c5_derived_mode_lookup (adata : AnnData) (ck : String) (d : DataFrame)
    (col : List String) (cs : List String)
    (h1 : List.lookup ("ripley_k_" ++ ck) adata.uns = some (UnsVal.df d))
    (h2 : List.lookup ck adata.obs = some col)
    (h3 : List.lookup (ck ++ "_colors") adata.uns = some (UnsVal.colors cs)) :
    plot_ripley_k adata ck none =
      (Except.ok [PlotEvent.figure, PlotEvent.addSubplot 111,
        PlotEvent.lineplot "distance" "ripley_k" "leiden"
          (some (sortedUnique col)) (some cs) d], adata) := by
  simp [plot_ripley_k, ripleyDerived, AnnData.unsItem, AnnData.obsItem,
    h1, h2, h3, catchValueError]

/-- C5 witness: the lookup convention evaluated on a concrete container. -/
theorem c5_derived_mode_lookup_witness :
    plot_ripley_k adataFull "leiden" none =
      (Except.ok [PlotEvent.figure, PlotEvent.addSubplot 111,
        PlotEvent.lineplot "distance" "ripley_k" "leiden"
          (some (sortedUnique ["1", "0", "1"])) (some ["#111111", "#222222"])
          ripleyTable], adataFull) :=
  c5_derived_mode_lookup adataFull "leiden" ripleyTable ["1", "0", "1"]
    ["#111111", "#222222"] rfl rfl rfl

/-- C6: with the key present, the centrality plot renames the four metric
columns to two-line labels on a copy (rows untouched) and draws exactly four
side-by-side panels subplot(1,4,i) in the fixed metric order, each a
stripplot on the shared "cluster" row axis over the same renamed table, and
only the first panel keeps the row-axis label and its tick labels. -/
theorem c6_centrality_four_panels (adata : AnnData) (key : String) (d : DataFrame)
    (h : List.lookup key adata.uns = some (UnsVal.df d))
    (hc : d.columns = ["cluster", "degree centrality", "clustering coefficient",
      "closeness centrality", "betweenness centrality"]) :
    ∃ es, (plot_cluster_centrality_scores adata key).1 = Except.ok es ∧
      subplotCells es = [(1, 4, 1), (1, 4, 2), (1, 4, 3), (1, 4, 4)] ∧
      stripXs es = centralityValues ∧
      stripYs es = ["cluster", "cluster", "cluster", "cluster"] ∧
      stripDatas es = List.replicate 4 (d.rename centralityRenameMap) ∧
      (d.rename centralityRenameMap).columns =
        ["cluster", "degree\ncentrality", "clustering\ncoefficient",
         "closeness\ncentrality", "betweenness\ncentrality"] ∧
      (d.rename centralityRenameMap).rows = d.rows ∧
      panelsWithYlabelOff es = [2, 3, 4] ∧
      panelsWithLeftTicksOff es = [2, 3, 4] := by
  refine ⟨(((List.zip [1, 2, 3, 4] centralityValues).map
    (fun p => stripPanel (d.rename centralityRenameMap) p.1 p.2)).flatten),
    ?_, ?_, ?_, ?_, ?_, ?_, ?_, ?_, ?_⟩
  · simp [plot_cluster_centrality_scores, h]
  · simp [centralityValues, stripPanel, subplotCells]
  · simp [centralityValues, stripPanel, stripXs]
  · simp [centralityValues, stripPanel, stripYs]
  · simp [centralityValues, stripPanel, stripDatas, List.replicate]
  · rw [show (d.rename centralityRenameMap).columns =
      d.columns.map (fun c => (List.lookup c centralityRenameMap).getD c) from rfl, hc]
    rfl
  · rfl
  · simp [centralityValues, stripPanel, panelsWithYlabelOff, panelsWhere]
  · simp [centralityValues, stripPanel, panelsWithLeftTicksOff, panelsWhere]

/-- A centrality-score table with the four metric columns and two rows. -/
def centralityTable : DataFrame :=
  DataFrame.mk
    ["cluster", "degree centrality", "clustering coefficient",
     "closeness centrality", "betweenness centrality"]
    [[Cell.str "0", Cell.num 1, Cell.num 2, Cell.num 3, Cell.num 4],
     [Cell.str "1", Cell.num 5, Cell.num 6, Cell.num 7, Cell.num 8]]

/-- A container holding the centrality-score table under the default key. -/
def adataCentrality : AnnData :=
  AnnData.mk [("cluster_centrality_scores", UnsVal.df centralityTable)] []

/-- C6 witness: the four-panel rendering evaluated on a concrete container. -/
theorem c6_centrality_four_panels_witness :
    ∃ es, (plot_cluster_centrality_scores adataCentrality "cluster_centrality_scores").1 =
        Except.ok es ∧
      subplotCells es = [(1, 4, 1), (1, 4, 2), (1, 4, 3), (1, 4, 4)] ∧
      stripXs es = centralityValues ∧
      stripYs es = ["cluster", "cluster", "cluster", "cluster"] ∧
      stripDatas es = List.replicate 4 (centralityTable.rename centralityRenameMap) ∧
      (centralityTable.rename centralityRenameMap).columns =
        ["cluster", "degree\ncentrality", "clustering\ncoefficient",
         "closeness\ncentrality", "betweenness\ncentrality"] ∧
      (centralityTable.rename centralityRenameMap).rows = centralityTable.rows ∧
      panelsWithYlabelOff es = [2, 3, 4] ∧
      panelsWithLeftTicksOff es = [2, 3, 4] :=
  c6_centrality_four_panels adataCentrality "cluster_centrality_scores"
    centralityTable rfl rfl

/-- C7: with the key present and a stored pair of an M-by-M matrix and M
labels, the interactions plot is one matshow image with a colorbar and with
the M labels placed, in their stored order, at tick positions 0..M-1 on both
axes. -/
theorem c7_interactions_heatmap (adata : AnnData) (key : String)
    (m : List (List Int)) (labels : List String)
    (h : List.lookup key adata.uns = some (UnsVal.matrixLabels m labels))
    (_hrows : m.length = labels.length)
    (_hcols : ∀ row ∈ m, row.length = labels.length) :
    plot_cluster_interactions adata key =
      (Except.ok [PlotEvent.figure, PlotEvent.addSubplot 111,
        PlotEvent.matshow m, PlotEvent.colorbar,
        PlotEvent.xticks (List.range labels.length) labels,
        PlotEvent.yticks (List.range labels.length) labels], adata) := by
  simp [plot_cluster_interactions, h]

/-- A square 2-by-2 interaction matrix with its two labels. -/
def adataInteractions : AnnData :=
  AnnData.mk [("cluster_interactions",
    UnsVal.matrixLabels [[1, 2], [2, 4]] ["0", "1"])] []

/-- C7 witness: the heatmap rendering evaluated on a concrete container. -/
theorem c7_interactions_heatmap_witness :
    plot_cluster_interactions adataInteractions "cluster_interactions" =
      (Except.ok [PlotEvent.figure, PlotEvent.addSubplot 111,
        PlotEvent.matshow [[1, 2], [2, 4]], PlotEvent.colorbar,
        PlotEvent.xticks (List.range (["0", "1"] : List String).length) ["0", "1"],
        PlotEvent.yticks (List.range (["0", "1"] : List String).length) ["0", "1"]],
       adataInteractions) :=
  c7_interactions_heatmap adataInteractions "cluster_interactions"
    [[1, 2], [2, 4]] ["0", "1"] rfl rfl (by decide)

/-- C8: whenever plot_ripley_k succeeds, explicit table or derived, the trace
holds exactly one lineplot call and it uses the literal column names
"distance" (x), "ripley_k" (y) and "leiden" (hue), whatever the cluster key. -/
theorem c8_lineplot_literal_columns (adata : AnnData) (ck : String)
    (dfo : Option DataFrame) (es : List PlotEvent)
    (h : (plot_ripley_k adata ck dfo).1 = Except.ok es) :
    lineplotSigs es = [("distance", "ripley_k", "leiden")] := by
  cases dfo with
  | some d =>
      simp [plot_ripley_k] at h
      subst h
      simp [lineplotSigs]
  | none =>
      cases hd : ripleyDerived adata ck with
      | error e => simp [plot_ripley_k, hd] at h
      | ok dhp =>
          simp [plot_ripley_k, hd] at h
          subst h
          simp [lineplotSigs]

/-- C8 witness: the lineplot signature evaluated on a concrete call. -/
theorem c8_lineplot_literal_columns_witness :
    lineplotSigs [PlotEvent.figure, PlotEvent.addSubplot 111,
      PlotEvent.lineplot "distance" "ripley_k" "leiden" none none ripleyTable] =
      [("distance", "ripley_k", "leiden")] :=
  c8_lineplot_literal_columns emptyAnnData "anything" (some ripleyTable) _ rfl

/-- C9: no operation mutates the container: each call hands the AnnData back
unchanged (the column rename works on a copy), so in particular the stored
centrality table keeps its original column names. -/
theorem c9_container_unchanged (adata : AnnData) (k1 k2 ck : String)
    (dfo : Option DataFrame) :
    (plot_cluster_centrality_scores adata k1).2 = adata ∧
    (plot_cluster_interactions adata k2).2 = adata ∧
    (plot_ripley_k adata ck dfo).2 = adata ∧
    List.lookup k1 ((plot_cluster_centrality_scores adata k1).2).uns =
      List.lookup k1 adata.uns :=
  ⟨rfl, rfl, rfl, rfl⟩

/-- C10: plot_cluster_interactions relates the matrix to the labels in no
way: for any stored pair, square or not, it succeeds and the tick labels on
each axis are exactly the stored label sequence at positions 0..len-1,
independent of the matrix dimensions. -/
theorem c10_no_shape_validation (adata : AnnData) (key : String)
    (m : List (List Int)) (labels : List String)
    (h : List.lookup key adata.uns = some (UnsVal.matrixLabels m labels)) :
    ∃ es, (plot_cluster_interactions adata key).1 = Except.ok es ∧
      xtickLabelLists es = [labels] ∧
      ytickLabelLists es = [labels] ∧
      xtickPositionLists es = [List.range labels.length] := by
  refine ⟨[PlotEvent.figure, PlotEvent.addSubplot 111,
    PlotEvent.matshow m, PlotEvent.colorbar,
    PlotEvent.xticks (List.range labels.length) labels,
    PlotEvent.yticks (List.range labels.length) labels], ?_, ?_, ?_, ?_⟩
  · simp [plot_cluster_interactions, h]
  · simp [xtickLabelLists]
  · simp [ytickLabelLists]
  · simp [xtickPositionLists]

/-- A non-square 1-by-3 matrix stored with two labels. -/
def adataMismatch : AnnData :=
  AnnData.mk [("cluster_interactions",
    UnsVal.matrixLabels [[1, 2, 3]] ["a", "b"])] []

/-- C10 witness: a 1-by-3 matrix with 2 labels still renders, with 2 ticks. -/
theorem c10_no_shape_validation_witness :
    ∃ es, (plot_cluster_interactions adataMismatch "cluster_interactions").1 =
        Except.ok es ∧
      xtickLabelLists es = [["a", "b"]] ∧
      ytickLabelLists es = [["a", "b"]] ∧
      xtickPositionLists es = [List.range (["a", "b"] : List String).length] :=
  c10_no_shape_validation adataMismatch "cluster_interactions" [[1, 2, 3]]
    ["a", "b"] rfl

end SpatialTools
